import Mathlib

/-!
Shallow embedding of the policy/validation and configuration-derivation
core of the x-infra-kit repository (src/config/constraints, src/config/cluster,
src/config/network, src/profiles, src/components/security, src/composites/platform),
together with theorems settling the specification claims about it.

Conventions: TypeScript `throw new Error(...)` is modelled as `Except.error`
carrying an error kind from the spec's error taxonomy; optional (`?`) fields
are `Option` with `?? default` rendered as `Option.getD`; JS numbers used as
integers are `Int`; strings are `String`.
-/

namespace XInfraKit

/-- Decidable equality for `Except`, so concrete validation outcomes can be
settled by `decide`. -/
instance {ε α : Type} [DecidableEq ε] [DecidableEq α] : DecidableEq (Except ε α) := fun a b =>
  match a, b with
  | .ok x, .ok y => if h : x = y then .isTrue (by rw [h]) else .isFalse (by simp [h])
  | .error e, .error f => if h : e = f then .isTrue (by rw [h]) else .isFalse (by simp [h])
  | .ok _, .error _ => .isFalse (by simp)
  | .error _, .ok _ => .isFalse (by simp)

/-- Error taxonomy of the validation core (spec section 7). The `outOfRange`
constructor carries the name of the violated numeric bound, as the source
error messages do. -/
inductive ConfigError where
  | invalidEnvironment
  | invalidRegion
  | invalidMachineType
  | outOfRange (field : String)
  | minExceedsMax
  | malformedCidr
  | notPrivateRange
  | misalignedBlock
  | emptySecretList
  | blankSecretId
  | incompleteIdentityConfig
  | invalidServiceAccountIdLength
  | blankProjectId
  | blankNamespace
  | blankServiceAccountName
  | secretNotFound
  | notConfigured
deriving Repr, DecidableEq

/-- `ALLOWED_ENVIRONMENTS` from src/config/constraints.ts. -/
def ALLOWED_ENVIRONMENTS : List String := ["dev", "staging", "prod"]

/-- `ALLOWED_REGIONS` from src/config/constraints.ts. -/
def ALLOWED_REGIONS : List String :=
  ["europe-west1", "europe-west3", "europe-west4", "us-central1", "us-east1"]

/-- `ALLOWED_MACHINE_TYPES` from src/config/constraints.ts. -/
def ALLOWED_MACHINE_TYPES : List String :=
  ["e2-micro", "e2-small", "e2-medium", "e2-standard-2", "e2-standard-4",
   "n2-standard-2", "n2-standard-4", "n2-standard-8", "n2-highmem-2", "n2-highmem-4"]

/-- An inclusive integer range, one entry of `CONSTRAINTS`. -/
structure Bounds where
  min : Int
  max : Int
deriving Repr, DecidableEq

/-- The three named numeric bounds of `CONSTRAINTS`. -/
structure NumericConstraints where
  maxNodes : Bounds
  diskSize : Bounds
  nodeCount : Bounds
deriving Repr, DecidableEq

/-- `CONSTRAINTS` from src/config/constraints.ts. -/
def CONSTRAINTS : NumericConstraints :=
  { maxNodes := ⟨1, 50⟩, diskSize := ⟨30, 200⟩, nodeCount := ⟨1, 20⟩ }

/-- `validateEnvironment` from src/config/constraints.ts. -/
def validateEnvironment (env : String) : Except ConfigError Unit :=
  if ALLOWED_ENVIRONMENTS.contains env then .ok () else .error .invalidEnvironment

/-- `validateRegion` from src/config/constraints.ts. -/
def validateRegion (region : String) : Except ConfigError Unit :=
  if ALLOWED_REGIONS.contains region then .ok () else .error .invalidRegion

/-- `validateMachineType` from src/config/constraints.ts. -/
def validateMachineType (machineType : String) : Except ConfigError Unit :=
  if ALLOWED_MACHINE_TYPES.contains machineType then .ok () else .error .invalidMachineType

/-- `validateMaxNodes` from src/config/constraints.ts. -/
def validateMaxNodes (maxNodes : Int) : Except ConfigError Unit :=
  if maxNodes < CONSTRAINTS.maxNodes.min ∨ maxNodes > CONSTRAINTS.maxNodes.max then
    .error (.outOfRange "maxNodes")
  else .ok ()

/-- `validateDiskSize` from src/config/constraints.ts. -/
def validateDiskSize (diskSize : Int) : Except ConfigError Unit :=
  if diskSize < CONSTRAINTS.diskSize.min ∨ diskSize > CONSTRAINTS.diskSize.max then
    .error (.outOfRange "diskSize")
  else .ok ()

/-- `validateNodeCount` from src/config/constraints.ts. -/
def validateNodeCount (nodeCount : Int) : Except ConfigError Unit :=
  if nodeCount < CONSTRAINTS.nodeCount.min ∨ nodeCount > CONSTRAINTS.nodeCount.max then
    .error (.outOfRange "nodeCount")
  else .ok ()

/-- JavaScript `String.prototype.split` with a single-character separator,
on the character list of the string: `"".split(s)` is `[""]`, separators at
the ends produce empty groups. -/
def splitOnChar (sep : Char) : List Char → List (List Char)
  | [] => [[]]
  | c :: cs =>
      let rest := splitOnChar sep cs
      if c = sep then [] :: rest
      else
        match rest with
        | [] => [[c]]
        | g :: gs => (c :: g) :: gs

/-- One octet group of the CIDR regex `\d{1,3}`: one to three decimal digits. -/
def isOctetGroup (g : List Char) : Bool :=
  decide (1 ≤ g.length) && decide (g.length ≤ 3) && g.all Char.isDigit

/-- The format stage of `validateMasterCidr`: the regex
`^(\d{1,3}\.){3}\d{1,3}\/28$` — exactly four dot-separated 1–3-digit octet
groups followed by the literal `/28`. -/
def cidrFormatOk (cidr : String) : Bool :=
  match splitOnChar '/' cidr.toList with
  | [ip, sfx] =>
      sfx == ['2', '8'] &&
        (let gs := splitOnChar '.' ip
         gs.length == 4 && gs.all isOctetGroup)
  | _ => false

/-- JavaScript `Number(...)` restricted to all-digit strings: the decimal
value of a digit list. -/
def digitsToNat (g : List Char) : Nat :=
  g.foldl (fun acc c => acc * 10 + (c.toNat - '0'.toNat)) 0

/-- The four parsed octets of a CIDR string: `cidr.split('/')[0].split('.').map(Number)`. -/
def cidrOctets (cidr : String) : List Nat :=
  ((splitOnChar '.' ((splitOnChar '/' cidr.toList).headD [])).map digitsToNat)

/-- The RFC 1918 private-range membership test of `validateMasterCidr`:
octet0 = 10, or octet0 = 172 with 16 ≤ octet1 ≤ 31, or octet0 = 192 with
octet1 = 168. -/
def isPrivateOctets (octets : List Nat) : Bool :=
  octets.getD 0 0 == 10 ||
  (octets.getD 0 0 == 172 && decide (16 ≤ octets.getD 1 0) && decide (octets.getD 1 0 ≤ 31)) ||
  (octets.getD 0 0 == 192 && octets.getD 1 0 == 168)

/-- `validateMasterCidr` from src/config/constraints.ts: format check, octet
range check, RFC 1918 private-range check, /28 alignment check, in that
order, failing with the first stage that rejects. -/
def validateMasterCidr (cidr : String) : Except ConfigError Unit :=
  if ¬ cidrFormatOk cidr then .error .malformedCidr
  else
    let octets := cidrOctets cidr
    if octets.any (fun o => 255 < o) then .error .malformedCidr
    else if ¬ isPrivateOctets octets then .error .notPrivateRange
    else if octets.getD 3 0 % 16 ≠ 0 then .error .misalignedBlock
    else .ok ()

/-- `NetworkConfigArgs` from src/config/network.ts: required fields plus
optional fields (`?` in the source) as `Option`, `none` meaning absent.
The source field `prefix` is a Lean keyword and is rendered `namePrefix`. -/
structure NetworkConfigArgs where
  projectId : String
  region : String
  env : String
  namePrefix : String
  cidr : Option String := none
  podCidr : Option String := none
  serviceCidr : Option String := none
  podRangeName : Option String := none
  serviceRangeName : Option String := none
deriving Repr, DecidableEq

/-- The `NetworkConfig` value object from src/config/network.ts (fields after
construction). -/
structure NetworkConfig where
  projectId : String
  region : String
  env : String
  namePrefix : String
  cidr : String
  podCidr : String
  serviceCidr : String
  podRangeName : String
  serviceRangeName : String
deriving Repr, DecidableEq

/-- The `NetworkConfig` constructor: validate environment, then region, then
fill every optional field with its default (`??` in the source) and store the
rest verbatim. -/
def mkNetworkConfig (args : NetworkConfigArgs) : Except ConfigError NetworkConfig := do
  validateEnvironment args.env
  validateRegion args.region
  pure
    { projectId := args.projectId
      region := args.region
      env := args.env
      namePrefix := args.namePrefix
      cidr := args.cidr.getD "10.0.0.0/16"
      podCidr := args.podCidr.getD "10.11.0.0/21"
      serviceCidr := args.serviceCidr.getD "10.12.0.0/21"
      podRangeName := args.podRangeName.getD "pod-ranges"
      serviceRangeName := args.serviceRangeName.getD "service-ranges" }

/-- Derived name `vpcName = "{prefix}-{env}-vpc"` of `NetworkConfig`. -/
def NetworkConfig.vpcName (c : NetworkConfig) : String :=
  c.namePrefix ++ "-" ++ c.env ++ "-vpc"

/-- Derived name `subnetName = "{prefix}-{env}-subnet"` of `NetworkConfig`. -/
def NetworkConfig.subnetName (c : NetworkConfig) : String :=
  c.namePrefix ++ "-" ++ c.env ++ "-subnet"

/-- `ClusterConfigArgs` from src/config/cluster.ts: required fields plus
optional fields as `Option`. -/
structure ClusterConfigArgs where
  projectId : String
  region : String
  env : String
  namePrefix : String
  zone : Option String := none
  machineType : Option String := none
  nodeCount : Option Int := none
  minNodes : Option Int := none
  maxNodes : Option Int := none
  diskSize : Option Int := none
  spotInstances : Option Bool := none
  masterCidr : Option String := none
  podRangeName : Option String := none
  serviceRangeName : Option String := none
deriving Repr, DecidableEq

/-- The `ClusterConfig` value object from src/config/cluster.ts (fields after
construction). -/
structure ClusterConfig where
  projectId : String
  region : String
  env : String
  namePrefix : String
  zone : String
  machineType : String
  nodeCount : Int
  minNodes : Int
  maxNodes : Int
  diskSize : Int
  spotInstances : Bool
  masterCidr : String
  podRangeName : String
  serviceRangeName : String
deriving Repr, DecidableEq

/-- The `ClusterConfig` constructor from src/config/cluster.ts, preserving
the source's validation order: environment, region, machineType (default
`e2-medium`), maxNodes (default 3), diskSize (default 50), nodeCount
(default 1), the minNodes-vs-maxNodes cross check (minNodes default 1),
then — after the pure field assignments including `zone ?? region-a` —
masterCidr (default `172.16.0.0/28`). -/
def mkClusterConfig (args : ClusterConfigArgs) : Except ConfigError ClusterConfig := do
  validateEnvironment args.env
  validateRegion args.region
  let machineType := args.machineType.getD "e2-medium"
  validateMachineType machineType
  let maxNodes := args.maxNodes.getD 3
  validateMaxNodes maxNodes
  let diskSize := args.diskSize.getD 50
  validateDiskSize diskSize
  let nodeCount := args.nodeCount.getD 1
  validateNodeCount nodeCount
  let minNodes := args.minNodes.getD 1
  if minNodes > maxNodes then
    throw .minExceedsMax
  let masterCidr := args.masterCidr.getD "172.16.0.0/28"
  validateMasterCidr masterCidr
  pure
    { projectId := args.projectId
      region := args.region
      env := args.env
      namePrefix := args.namePrefix
      zone := args.zone.getD (args.region ++ "-a")
      machineType := machineType
      nodeCount := nodeCount
      minNodes := minNodes
      maxNodes := maxNodes
      diskSize := diskSize
      spotInstances := args.spotInstances.getD true
      masterCidr := masterCidr
      podRangeName := args.podRangeName.getD "pod-ranges"
      serviceRangeName := args.serviceRangeName.getD "service-ranges" }

/-- Derived name `clusterName = "{prefix}-{env}-cluster"` of `ClusterConfig`. -/
def ClusterConfig.clusterName (c : ClusterConfig) : String :=
  c.namePrefix ++ "-" ++ c.env ++ "-cluster"

/-- Derived `workloadPool = "{projectId}.svc.id.goog"` of `ClusterConfig`. -/
def ClusterConfig.workloadPool (c : ClusterConfig) : String :=
  c.projectId ++ ".svc.id.goog"

/-- The four constructor parameters every `PlatformProfile` holds
(src/profiles/base.ts). -/
structure ProfileParams where
  projectId : String
  region : String
  env : String
  namePrefix : String
deriving Repr, DecidableEq

/-- Caller overrides, `Partial<ClusterConfigArgs>` in the source: every field
optional, `none` meaning the key is absent from the override object. -/
structure ClusterOverrides where
  projectId : Option String := none
  region : Option String := none
  env : Option String := none
  namePrefix : Option String := none
  zone : Option String := none
  machineType : Option String := none
  nodeCount : Option Int := none
  minNodes : Option Int := none
  maxNodes : Option Int := none
  diskSize : Option Int := none
  spotInstances : Option Bool := none
  masterCidr : Option String := none
  podRangeName : Option String := none
  serviceRangeName : Option String := none
deriving Repr, DecidableEq

/-- The profile variants of src/profiles: `DevProfile` (cost-optimized),
`StagingProfile` (balanced), `ProdProfile` (high availability). -/
inductive ProfileKind where
  | dev
  | staging
  | prod
deriving Repr, DecidableEq

/-- The per-variant cluster defaults each profile's `getClusterConfig`
spreads before the overrides (src/profiles/dev.ts, staging.ts, prod.ts):
(machineType, nodeCount, minNodes, maxNodes, spotInstances, diskSize). -/
def profileClusterDefaults : ProfileKind → String × Int × Int × Int × Bool × Int
  | .dev => ("e2-medium", 1, 1, 3, true, 50)
  | .staging => ("n2-standard-2", 2, 2, 5, true, 75)
  | .prod => ("n2-standard-4", 3, 3, 10, false, 100)

/-- `PlatformProfile.getNetworkConfig` (src/profiles/base.ts): merge the
profile's own parameters with the overrides — a JS object spread
`{ base..., ...overrides }`, overrides winning key-by-key — and construct a
`NetworkConfig`. Only the fields a `NetworkConfigArgs` has participate. -/
def profileGetNetworkConfig (p : ProfileParams) (o : ClusterOverrides) :
    Except ConfigError NetworkConfig :=
  mkNetworkConfig
    { projectId := o.projectId.getD p.projectId
      region := o.region.getD p.region
      env := o.env.getD p.env
      namePrefix := o.namePrefix.getD p.namePrefix
      podRangeName := o.podRangeName
      serviceRangeName := o.serviceRangeName }

/-- `getClusterConfig` of the selected profile variant: spread the profile
parameters, then the variant's cluster defaults, then the caller overrides
(overrides win field-by-field), and construct a `ClusterConfig` through full
validation. -/
def profileGetClusterConfig (k : ProfileKind) (p : ProfileParams) (o : ClusterOverrides) :
    Except ConfigError ClusterConfig :=
  let d := profileClusterDefaults k
  mkClusterConfig
    { projectId := o.projectId.getD p.projectId
      region := o.region.getD p.region
      env := o.env.getD p.env
      namePrefix := o.namePrefix.getD p.namePrefix
      zone := o.zone
      machineType := some (o.machineType.getD d.1)
      nodeCount := some (o.nodeCount.getD d.2.1)
      minNodes := some (o.minNodes.getD d.2.2.1)
      maxNodes := some (o.maxNodes.getD d.2.2.2.1)
      spotInstances := some (o.spotInstances.getD d.2.2.2.2.1)
      diskSize := some (o.diskSize.getD d.2.2.2.2.2)
      masterCidr := o.masterCidr
      podRangeName := o.podRangeName
      serviceRangeName := o.serviceRangeName }

/-- `StandardSecrets` (src/components/security.ts): the list of declared
secret ids. -/
structure StandardSecrets where
  secretIds : List String
deriving Repr, DecidableEq

/-- A JavaScript string is blank when it is empty or trims to empty
(`!s || !s.trim()`): equivalently, every character is whitespace. -/
def isBlank (s : String) : Bool := s.toList.all Char.isWhitespace

/-- The `StandardSecrets` constructor: reject an empty id list, then reject
the list if any id is blank (the source walks the list and throws at the
first blank id), otherwise declare one secret per id. -/
def mkStandardSecrets (secretIds : List String) : Except ConfigError StandardSecrets :=
  if secretIds.isEmpty then .error .emptySecretList
  else if secretIds.any isBlank then .error .blankSecretId
  else .ok { secretIds := secretIds }

/-- `StandardSecrets.getSecret`: look the id up among the declared ids,
failing with `SecretNotFound` when absent. -/
def StandardSecrets.getSecret (s : StandardSecrets) (secretId : String) :
    Except ConfigError String :=
  if s.secretIds.contains secretId then .ok secretId else .error .secretNotFound

/-- `StandardIdentity` (src/components/security.ts): the validated identity
binding parameters. -/
structure StandardIdentity where
  projectId : String
  saId : String
  k8sNamespace : String
  k8sSaName : String
  roles : List String
deriving Repr, DecidableEq

/-- The `StandardIdentity` constructor: reject an empty projectId, a saId
that is empty or outside 6–30 characters, an empty k8sNamespace, an empty
k8sSaName, in that order (the source's truthiness checks `!projectId` etc.
are emptiness checks on strings). -/
def mkStandardIdentity (projectId saId k8sNamespace k8sSaName : String)
    (roles : List String) : Except ConfigError StandardIdentity :=
  if projectId == "" then .error .blankProjectId
  else if saId == "" || saId.length < 6 || saId.length > 30 then
    .error .invalidServiceAccountIdLength
  else if k8sNamespace == "" then .error .blankNamespace
  else if k8sSaName == "" then .error .blankServiceAccountName
  else .ok { projectId, saId, k8sNamespace, k8sSaName, roles }

/-- `WorkloadIdentityConfig` from src/composites/platform.ts. -/
structure WorkloadIdentityConfig where
  saId : String
  k8sNamespace : String
  k8sSaName : String
  roles : List String := []
deriving Repr, DecidableEq

/-- `StandardPlatformArgs` from src/composites/platform.ts. -/
structure StandardPlatformArgs where
  projectId : String
  region : String
  env : String
  namePrefix : String
  secretIds : Option (List String) := none
  workloadIdentity : Option WorkloadIdentityConfig := none
  clusterOverrides : ClusterOverrides := {}
deriving Repr, DecidableEq

/-- The `StandardPlatform` composite's validated state: the two derived
configurations and the optional secrets/identity components. -/
structure StandardPlatform where
  projectId : String
  region : String
  env : String
  namePrefix : String
  networkConfig : NetworkConfig
  clusterConfig : ClusterConfig
  secrets : Option StandardSecrets
  identity : Option StandardIdentity
deriving Repr, DecidableEq

/-- `selectProfile`: the composite's profile dispatch — exact match on
`"prod"`, then `"staging"`, anything else falls through to the dev
(cost-optimized) profile. -/
def selectProfile (env : String) : ProfileKind :=
  if env = "prod" then .prod
  else if env = "staging" then .staging
  else .dev

/-- The `StandardPlatform` constructor (src/composites/platform.ts):
select the profile by environment; derive the network configuration; derive
the cluster configuration with the network's range names propagated and the
caller's cluster overrides spread last (so they win); declare the secrets
component only when `secretIds` is present and non-empty; when a
workload-identity configuration is present, fail with
`IncompleteIdentityConfig` if any of `saId`, `k8sNamespace`, `k8sSaName` is
empty, then construct the identity component. -/
def mkStandardPlatform (args : StandardPlatformArgs) : Except ConfigError StandardPlatform := do
  let kind := selectProfile args.env
  let p : ProfileParams :=
    { projectId := args.projectId, region := args.region
      env := args.env, namePrefix := args.namePrefix }
  let networkConfig ← profileGetNetworkConfig p {}
  let clusterConfig ← profileGetClusterConfig kind p
    { args.clusterOverrides with
      podRangeName := args.clusterOverrides.podRangeName <|> some networkConfig.podRangeName
      serviceRangeName :=
        args.clusterOverrides.serviceRangeName <|> some networkConfig.serviceRangeName }
  let secrets ←
    match args.secretIds with
    | some ids =>
        if ids.length > 0 then do
          let s ← mkStandardSecrets ids
          pure (some s)
        else pure none
    | none => pure none
  let identity ←
    match args.workloadIdentity with
    | some wi =>
        if wi.saId == "" || wi.k8sNamespace == "" || wi.k8sSaName == "" then
          .error .incompleteIdentityConfig
        else do
          let i ← mkStandardIdentity args.projectId wi.saId wi.k8sNamespace wi.k8sSaName wi.roles
          pure (some i)
    | none => pure none
  pure
    { projectId := args.projectId, region := args.region
      env := args.env, namePrefix := args.namePrefix
      networkConfig, clusterConfig, secrets, identity }

/-- `hasSecrets` accessor of the composite. -/
def StandardPlatform.hasSecrets (p : StandardPlatform) : Bool := p.secrets.isSome

/-- `hasIdentity` accessor of the composite. -/
def StandardPlatform.hasIdentity (p : StandardPlatform) : Bool := p.identity.isSome

/-- `secrets` accessor of the composite: fails with `NotConfigured` when the
secrets component was never declared. -/
def StandardPlatform.getSecrets (p : StandardPlatform) : Except ConfigError StandardSecrets :=
  match p.secrets with
  | some s => .ok s
  | none => .error .notConfigured

/-- `identity` accessor of the composite: fails with `NotConfigured` when the
identity component was never declared. -/
def StandardPlatform.getIdentity (p : StandardPlatform) : Except ConfigError StandardIdentity :=
  match p.identity with
  | some i => .ok i
  | none => .error .notConfigured

/-! ## Helper predicates and validator characterisations -/

/-- Membership in the environment allow-list, as a Bool. -/
def envOk (env : String) : Bool := ALLOWED_ENVIRONMENTS.contains env

/-- Membership in the region allow-list, as a Bool. -/
def regionOk (region : String) : Bool := ALLOWED_REGIONS.contains region

/-- Membership in the machine-type allow-list, as a Bool. -/
def machineTypeOk (mt : String) : Bool := ALLOWED_MACHINE_TYPES.contains mt

/-- Concrete profile parameters for the dev environment, used to settle the
profile-default claims on explicit inputs. -/
def devProfileParams : ProfileParams :=
  { projectId := "my-project", region := "europe-west1", env := "dev", namePrefix := "myapp" }

/-- Concrete profile parameters for the prod environment. -/
def prodProfileParams : ProfileParams :=
  { projectId := "my-project", region := "europe-west1", env := "prod", namePrefix := "myapp" }

/-- Concrete composite arguments selecting the staging environment, with no
cluster overrides. -/
def stagingPlatformArgs : StandardPlatformArgs :=
  { projectId := "my-project", region := "europe-west1", env := "staging",
    namePrefix := "myapp" }

/-- Concrete composite arguments with an explicitly supplied secret id list
and otherwise valid inputs. -/
def secretsPlatformArgs (ids : List String) : StandardPlatformArgs :=
  { projectId := "my-project", region := "europe-west1", env := "dev",
    namePrefix := "myapp", secretIds := some ids }

/-- Concrete composite arguments with a workload-identity configuration and
otherwise valid inputs. -/
def identityPlatformArgs (wi : WorkloadIdentityConfig) : StandardPlatformArgs :=
  { projectId := "my-project", region := "europe-west1", env := "dev",
    namePrefix := "myapp", workloadIdentity := some wi }

theorem validateEnvironment_err {env : String} (h : envOk env = false) :
    validateEnvironment env = .error .invalidEnvironment := by
  unfold envOk at h; unfold validateEnvironment; rw [h]; rfl

theorem validateEnvironment_ok {env : String} (h : envOk env = true) :
    validateEnvironment env = .ok () := by
  unfold envOk at h; unfold validateEnvironment; rw [h]; rfl

theorem validateRegion_err {region : String} (h : regionOk region = false) :
    validateRegion region = .error .invalidRegion := by
  unfold regionOk at h; unfold validateRegion; rw [h]; rfl

theorem validateRegion_ok {region : String} (h : regionOk region = true) :
    validateRegion region = .ok () := by
  unfold regionOk at h; unfold validateRegion; rw [h]; rfl

theorem validateMachineType_ok {mt : String} (h : machineTypeOk mt = true) :
    validateMachineType mt = .ok () := by
  unfold machineTypeOk at h; unfold validateMachineType; rw [h]; rfl

theorem validateMachineType_err {mt : String} (h : machineTypeOk mt = false) :
    validateMachineType mt = .error .invalidMachineType := by
  unfold machineTypeOk at h; unfold validateMachineType; rw [h]; rfl

theorem validateMaxNodes_ok {n : Int} (h : 1 ≤ n ∧ n ≤ 50) :
    validateMaxNodes n = .ok () := by
  simp only [validateMaxNodes, CONSTRAINTS]
  rw [if_neg]; omega

theorem validateMaxNodes_err {n : Int} (h : ¬ (1 ≤ n ∧ n ≤ 50)) :
    validateMaxNodes n = .error (.outOfRange "maxNodes") := by
  simp only [validateMaxNodes, CONSTRAINTS]
  rw [if_pos]; omega

theorem validateDiskSize_ok {n : Int} (h : 30 ≤ n ∧ n ≤ 200) :
    validateDiskSize n = .ok () := by
  simp only [validateDiskSize, CONSTRAINTS]
  rw [if_neg]; omega

theorem validateDiskSize_err {n : Int} (h : ¬ (30 ≤ n ∧ n ≤ 200)) :
    validateDiskSize n = .error (.outOfRange "diskSize") := by
  simp only [validateDiskSize, CONSTRAINTS]
  rw [if_pos]; omega

theorem validateNodeCount_ok {n : Int} (h : 1 ≤ n ∧ n ≤ 20) :
    validateNodeCount n = .ok () := by
  simp only [validateNodeCount, CONSTRAINTS]
  rw [if_neg]; omega

theorem validateNodeCount_err {n : Int} (h : ¬ (1 ≤ n ∧ n ≤ 20)) :
    validateNodeCount n = .error (.outOfRange "nodeCount") := by
  simp only [validateNodeCount, CONSTRAINTS]
  rw [if_pos]; omega

/-! ## Short-circuit lemmas for `mkClusterConfig` -/

theorem mkClusterConfig_env_err (a : ClusterConfigArgs) (h : envOk a.env = false) :
    mkClusterConfig a = .error .invalidEnvironment := by
  simp only [mkClusterConfig, validateEnvironment_err h, Bind.bind, Except.bind]

theorem mkClusterConfig_region_err (a : ClusterConfigArgs) (h : envOk a.env = true)
    (h2 : regionOk a.region = false) :
    mkClusterConfig a = .error .invalidRegion := by
  simp only [mkClusterConfig, validateEnvironment_ok h, validateRegion_err h2,
    Bind.bind, Except.bind]

theorem mkClusterConfig_machineType_err (a : ClusterConfigArgs)
    (h : envOk a.env = true) (h2 : regionOk a.region = true)
    (h3 : machineTypeOk (a.machineType.getD "e2-medium") = false) :
    mkClusterConfig a = .error .invalidMachineType := by
  simp only [mkClusterConfig, validateEnvironment_ok h, validateRegion_ok h2,
    validateMachineType_err h3, Bind.bind, Except.bind]

theorem mkClusterConfig_maxNodes_err (a : ClusterConfigArgs)
    (h : envOk a.env = true) (h2 : regionOk a.region = true)
    (h3 : machineTypeOk (a.machineType.getD "e2-medium") = true)
    (h4 : ¬ (1 ≤ a.maxNodes.getD 3 ∧ a.maxNodes.getD 3 ≤ 50)) :
    mkClusterConfig a = .error (.outOfRange "maxNodes") := by
  simp only [mkClusterConfig, validateEnvironment_ok h, validateRegion_ok h2,
    validateMachineType_ok h3, validateMaxNodes_err h4, Bind.bind, Except.bind]

theorem mkClusterConfig_diskSize_err (a : ClusterConfigArgs)
    (h : envOk a.env = true) (h2 : regionOk a.region = true)
    (h3 : machineTypeOk (a.machineType.getD "e2-medium") = true)
    (h4 : 1 ≤ a.maxNodes.getD 3 ∧ a.maxNodes.getD 3 ≤ 50)
    (h5 : ¬ (30 ≤ a.diskSize.getD 50 ∧ a.diskSize.getD 50 ≤ 200)) :
    mkClusterConfig a = .error (.outOfRange "diskSize") := by
  simp only [mkClusterConfig, validateEnvironment_ok h, validateRegion_ok h2,
    validateMachineType_ok h3, validateMaxNodes_ok h4, validateDiskSize_err h5,
    Bind.bind, Except.bind]

theorem mkClusterConfig_nodeCount_err (a : ClusterConfigArgs)
    (h : envOk a.env = true) (h2 : regionOk a.region = true)
    (h3 : machineTypeOk (a.machineType.getD "e2-medium") = true)
    (h4 : 1 ≤ a.maxNodes.getD 3 ∧ a.maxNodes.getD 3 ≤ 50)
    (h5 : 30 ≤ a.diskSize.getD 50 ∧ a.diskSize.getD 50 ≤ 200)
    (h6 : ¬ (1 ≤ a.nodeCount.getD 1 ∧ a.nodeCount.getD 1 ≤ 20)) :
    mkClusterConfig a = .error (.outOfRange "nodeCount") := by
  simp only [mkClusterConfig, validateEnvironment_ok h, validateRegion_ok h2,
    validateMachineType_ok h3, validateMaxNodes_ok h4, validateDiskSize_ok h5,
    validateNodeCount_err h6, Bind.bind, Except.bind]

theorem mkClusterConfig_minMax_err (a : ClusterConfigArgs)
    (h : envOk a.env = true) (h2 : regionOk a.region = true)
    (h3 : machineTypeOk (a.machineType.getD "e2-medium") = true)
    (h4 : 1 ≤ a.maxNodes.getD 3 ∧ a.maxNodes.getD 3 ≤ 50)
    (h5 : 30 ≤ a.diskSize.getD 50 ∧ a.diskSize.getD 50 ≤ 200)
    (h6 : 1 ≤ a.nodeCount.getD 1 ∧ a.nodeCount.getD 1 ≤ 20)
    (h7 : a.minNodes.getD 1 > a.maxNodes.getD 3) :
    mkClusterConfig a = .error .minExceedsMax := by
  simp only [mkClusterConfig, validateEnvironment_ok h, validateRegion_ok h2,
    validateMachineType_ok h3, validateMaxNodes_ok h4, validateDiskSize_ok h5,
    validateNodeCount_ok h6, Bind.bind, Except.bind]
  rw [if_pos (by omega)]

theorem mkClusterConfig_cidr_err (a : ClusterConfigArgs) (e : ConfigError)
    (h : envOk a.env = true) (h2 : regionOk a.region = true)
    (h3 : machineTypeOk (a.machineType.getD "e2-medium") = true)
    (h4 : 1 ≤ a.maxNodes.getD 3 ∧ a.maxNodes.getD 3 ≤ 50)
    (h5 : 30 ≤ a.diskSize.getD 50 ∧ a.diskSize.getD 50 ≤ 200)
    (h6 : 1 ≤ a.nodeCount.getD 1 ∧ a.nodeCount.getD 1 ≤ 20)
    (h7 : a.minNodes.getD 1 ≤ a.maxNodes.getD 3)
    (h8 : validateMasterCidr (a.masterCidr.getD "172.16.0.0/28") = .error e) :
    mkClusterConfig a = .error e := by
  simp only [mkClusterConfig, validateEnvironment_ok h, validateRegion_ok h2,
    validateMachineType_ok h3, validateMaxNodes_ok h4, validateDiskSize_ok h5,
    validateNodeCount_ok h6, Bind.bind, Except.bind]
  rw [if_neg (by omega)]
  simp only [h8, Functor.map, Except.map]
  rfl

theorem mkClusterConfig_ok (a : ClusterConfigArgs)
    (h : envOk a.env = true) (h2 : regionOk a.region = true)
    (h3 : machineTypeOk (a.machineType.getD "e2-medium") = true)
    (h4 : 1 ≤ a.maxNodes.getD 3 ∧ a.maxNodes.getD 3 ≤ 50)
    (h5 : 30 ≤ a.diskSize.getD 50 ∧ a.diskSize.getD 50 ≤ 200)
    (h6 : 1 ≤ a.nodeCount.getD 1 ∧ a.nodeCount.getD 1 ≤ 20)
    (h7 : a.minNodes.getD 1 ≤ a.maxNodes.getD 3)
    (h8 : validateMasterCidr (a.masterCidr.getD "172.16.0.0/28") = .ok ()) :
    mkClusterConfig a = .ok
      { projectId := a.projectId, region := a.region, env := a.env,
        namePrefix := a.namePrefix,
        zone := a.zone.getD (a.region ++ "-a"),
        machineType := a.machineType.getD "e2-medium",
        nodeCount := a.nodeCount.getD 1,
        minNodes := a.minNodes.getD 1,
        maxNodes := a.maxNodes.getD 3,
        diskSize := a.diskSize.getD 50,
        spotInstances := a.spotInstances.getD true,
        masterCidr := a.masterCidr.getD "172.16.0.0/28",
        podRangeName := a.podRangeName.getD "pod-ranges",
        serviceRangeName := a.serviceRangeName.getD "service-ranges" } := by
  simp only [mkClusterConfig, validateEnvironment_ok h, validateRegion_ok h2,
    validateMachineType_ok h3, validateMaxNodes_ok h4, validateDiskSize_ok h5,
    validateNodeCount_ok h6, Bind.bind, Except.bind]
  rw [if_neg (by omega)]
  simp only [h8, Functor.map, Except.map]
  rfl

/-! ## Helper lemmas for `mkNetworkConfig` and the composite -/

theorem mkNetworkConfig_env_err (a : NetworkConfigArgs) (h : envOk a.env = false) :
    mkNetworkConfig a = .error .invalidEnvironment := by
  simp only [mkNetworkConfig, validateEnvironment_err h, Bind.bind, Except.bind]

theorem mkNetworkConfig_region_err (a : NetworkConfigArgs) (h : envOk a.env = true)
    (h2 : regionOk a.region = false) :
    mkNetworkConfig a = .error .invalidRegion := by
  simp only [mkNetworkConfig, validateEnvironment_ok h, validateRegion_err h2,
    Bind.bind, Except.bind]

theorem mkNetworkConfig_ok (a : NetworkConfigArgs) (h : envOk a.env = true)
    (h2 : regionOk a.region = true) :
    mkNetworkConfig a = .ok
      { projectId := a.projectId, region := a.region, env := a.env,
        namePrefix := a.namePrefix,
        cidr := a.cidr.getD "10.0.0.0/16",
        podCidr := a.podCidr.getD "10.11.0.0/21",
        serviceCidr := a.serviceCidr.getD "10.12.0.0/21",
        podRangeName := a.podRangeName.getD "pod-ranges",
        serviceRangeName := a.serviceRangeName.getD "service-ranges" } := by
  simp only [mkNetworkConfig, validateEnvironment_ok h, validateRegion_ok h2,
    Bind.bind, Except.bind]
  rfl

theorem platform_secrets_nonempty_ok (ids : List String) (h1 : ids ≠ [])
    (h2 : ids.any isBlank = false) :
    (mkStandardPlatform (secretsPlatformArgs ids)).toOption.map
      StandardPlatform.hasSecrets = some true := by
  match ids, h1 with
  | x :: rest, _ =>
    have henv : validateEnvironment "dev" = .ok () := by decide
    have hr : validateRegion "europe-west1" = .ok () := by decide
    have hmt : validateMachineType "e2-medium" = .ok () := by decide
    have hmax : validateMaxNodes 3 = .ok () := by decide
    have hdisk : validateDiskSize 50 = .ok () := by decide
    have hnc : validateNodeCount 1 = .ok () := by decide
    have hcidr : validateMasterCidr "172.16.0.0/28" = .ok () := by decide
    simp [mkStandardPlatform, secretsPlatformArgs, mkStandardSecrets,
      profileGetNetworkConfig, profileGetClusterConfig, mkNetworkConfig, mkClusterConfig,
      selectProfile, profileClusterDefaults, StandardPlatform.hasSecrets,
      henv, hr, hmt, hmax, hdisk, hnc, hcidr, h2, Bind.bind, Except.bind,
      Functor.map, Except.map, Pure.pure, Except.pure, Except.toOption]

theorem platform_identity_blank_err (wi : WorkloadIdentityConfig)
    (h : wi.saId = "" ∨ wi.k8sNamespace = "" ∨ wi.k8sSaName = "") :
    mkStandardPlatform (identityPlatformArgs wi) = .error .incompleteIdentityConfig := by
  have henv : validateEnvironment "dev" = .ok () := by decide
  have hr : validateRegion "europe-west1" = .ok () := by decide
  have hmt : validateMachineType "e2-medium" = .ok () := by decide
  have hmax : validateMaxNodes 3 = .ok () := by decide
  have hdisk : validateDiskSize 50 = .ok () := by decide
  have hnc : validateNodeCount 1 = .ok () := by decide
  have hcidr : validateMasterCidr "172.16.0.0/28" = .ok () := by decide
  simp [mkStandardPlatform, identityPlatformArgs,
    profileGetNetworkConfig, profileGetClusterConfig, mkNetworkConfig, mkClusterConfig,
    selectProfile, profileClusterDefaults,
    henv, hr, hmt, hmax, hdisk, hnc, hcidr, Bind.bind, Except.bind,
    Functor.map, Except.map, Pure.pure, Except.pure]
  rcases h with h | h | h <;> simp [h]

theorem platform_identity_saId_length_err (wi : WorkloadIdentityConfig)
    (h1 : wi.saId ≠ "") (h2 : wi.k8sNamespace ≠ "") (h3 : wi.k8sSaName ≠ "")
    (h4 : wi.saId.length < 6 ∨ wi.saId.length > 30) :
    mkStandardPlatform (identityPlatformArgs wi) = .error .invalidServiceAccountIdLength := by
  have henv : validateEnvironment "dev" = .ok () := by decide
  have hr : validateRegion "europe-west1" = .ok () := by decide
  have hmt : validateMachineType "e2-medium" = .ok () := by decide
  have hmax : validateMaxNodes 3 = .ok () := by decide
  have hdisk : validateDiskSize 50 = .ok () := by decide
  have hnc : validateNodeCount 1 = .ok () := by decide
  have hcidr : validateMasterCidr "172.16.0.0/28" = .ok () := by decide
  simp [mkStandardPlatform, identityPlatformArgs, mkStandardIdentity,
    profileGetNetworkConfig, profileGetClusterConfig, mkNetworkConfig, mkClusterConfig,
    selectProfile, profileClusterDefaults,
    henv, hr, hmt, hmax, hdisk, hnc, hcidr, h1, h2, h3, Bind.bind, Except.bind,
    Functor.map, Except.map, Pure.pure, Except.pure]
  rcases h4 with h | h <;> simp [h]

theorem platform_identity_ok (wi : WorkloadIdentityConfig)
    (h1 : wi.saId ≠ "") (h2 : wi.k8sNamespace ≠ "") (h3 : wi.k8sSaName ≠ "")
    (h4 : 6 ≤ wi.saId.length) (h5 : wi.saId.length ≤ 30) :
    (mkStandardPlatform (identityPlatformArgs wi)).toOption.map
      StandardPlatform.hasIdentity = some true := by
  have henv : validateEnvironment "dev" = .ok () := by decide
  have hr : validateRegion "europe-west1" = .ok () := by decide
  have hmt : validateMachineType "e2-medium" = .ok () := by decide
  have hmax : validateMaxNodes 3 = .ok () := by decide
  have hdisk : validateDiskSize 50 = .ok () := by decide
  have hnc : validateNodeCount 1 = .ok () := by decide
  have hcidr : validateMasterCidr "172.16.0.0/28" = .ok () := by decide
  simp [mkStandardPlatform, identityPlatformArgs, mkStandardIdentity,
    profileGetNetworkConfig, profileGetClusterConfig, mkNetworkConfig, mkClusterConfig,
    selectProfile, profileClusterDefaults, StandardPlatform.hasIdentity,
    henv, hr, hmt, hmax, hdisk, hnc, hcidr, h1, h2, h3, Bind.bind, Except.bind,
    Functor.map, Except.map, Pure.pure, Except.pure, Except.toOption,
    show ¬ (wi.saId.length < 6) from by omega,
    show ¬ (wi.saId.length > 30) from by omega]

/-! ## Claim theorems -/

/-- Claim C2: `validateMasterCidr` runs its four checks in a fixed order —
format (four dot-separated 1–3-digit octet groups followed by a literal
`/28`) else `MalformedCidr`; octet range 0–255 else `MalformedCidr`;
RFC 1918 private-range membership else `NotPrivateRange`; last-octet
alignment mod 16 else `MisalignedBlock` — with the first failing check
determining the reported error; and the seven concrete cases behave as the
specification states. -/
theorem claim2_masterCidr_stage_order :
    (∀ s : String, cidrFormatOk s = false →
      validateMasterCidr s = .error .malformedCidr) ∧
    (∀ s : String, cidrFormatOk s = true →
      (cidrOctets s).any (fun o => 255 < o) = true →
      validateMasterCidr s = .error .malformedCidr) ∧
    (∀ s : String, cidrFormatOk s = true →
      (cidrOctets s).any (fun o => 255 < o) = false →
      isPrivateOctets (cidrOctets s) = false →
      validateMasterCidr s = .error .notPrivateRange) ∧
    (∀ s : String, cidrFormatOk s = true →
      (cidrOctets s).any (fun o => 255 < o) = false →
      isPrivateOctets (cidrOctets s) = true →
      (cidrOctets s).getD 3 0 % 16 ≠ 0 →
      validateMasterCidr s = .error .misalignedBlock) ∧
    (∀ s : String, cidrFormatOk s = true →
      (cidrOctets s).any (fun o => 255 < o) = false →
      isPrivateOctets (cidrOctets s) = true →
      (cidrOctets s).getD 3 0 % 16 = 0 →
      validateMasterCidr s = .ok ()) ∧
    validateMasterCidr "172.16.0.0/28" = .ok () ∧
    validateMasterCidr "172.16.0.16/28" = .ok () ∧
    validateMasterCidr "192.168.1.48/28" = .ok () ∧
    validateMasterCidr "172.16.0.0/24" = .error .malformedCidr ∧
    validateMasterCidr "8.8.8.0/28" = .error .notPrivateRange ∧
    validateMasterCidr "172.15.0.0/28" = .error .notPrivateRange ∧
    validateMasterCidr "172.16.0.1/28" = .error .misalignedBlock := by
  refine ⟨?_, ?_, ?_, ?_, ?_, by decide, by decide, by decide, by decide,
    by decide, by decide, by decide⟩
  · intro s h; simp [validateMasterCidr, h]
  · intro s h h2; simp [validateMasterCidr, h, h2]
  · intro s h h2 h3; simp [validateMasterCidr, h, h2, h3]
  · intro s h h2 h3 h4
    simp only [List.getD, List.get?_eq_getElem?] at h4
    simp [validateMasterCidr, h, h2, h3, h4]
  · intro s h h2 h3 h4
    simp only [List.getD, List.get?_eq_getElem?] at h4
    simp [validateMasterCidr, h, h2, h3, h4]

/-- Witness for C2: the format stage fires on a concrete malformed input. -/
theorem claim2_masterCidr_stage_order_witness :
    validateMasterCidr "1.2.3.4" = .error .malformedCidr :=
  claim2_masterCidr_stage_order.1 "1.2.3.4" (by decide)

/-- Claim C5: for all integers, the maxNodes bound validator succeeds iff
1 ≤ n ≤ 50, the disk-size validator iff 30 ≤ n ≤ 200, the node-count
validator iff 1 ≤ n ≤ 20, and outside these inclusive ranges each fails
with `OutOfRange` naming its bound. -/
theorem claim5_numeric_bound_validators (n : Int) :
    ((validateMaxNodes n = .ok ()) ↔ (1 ≤ n ∧ n ≤ 50)) ∧
    ((validateMaxNodes n = .error (.outOfRange "maxNodes")) ↔ ¬ (1 ≤ n ∧ n ≤ 50)) ∧
    ((validateDiskSize n = .ok ()) ↔ (30 ≤ n ∧ n ≤ 200)) ∧
    ((validateDiskSize n = .error (.outOfRange "diskSize")) ↔ ¬ (30 ≤ n ∧ n ≤ 200)) ∧
    ((validateNodeCount n = .ok ()) ↔ (1 ≤ n ∧ n ≤ 20)) ∧
    ((validateNodeCount n = .error (.outOfRange "nodeCount")) ↔ ¬ (1 ≤ n ∧ n ≤ 20)) := by
  unfold validateMaxNodes validateDiskSize validateNodeCount CONSTRAINTS
  refine ⟨?_, ?_, ?_, ?_, ?_, ?_⟩ <;> constructor <;> (split <;> simp_all <;> omega)

/-- Witness for C5: 51 lies outside the maxNodes range and the validator
reports `OutOfRange`. -/
theorem claim5_numeric_bound_validators_witness :
    validateMaxNodes 51 = .error (.outOfRange "maxNodes") :=
  (claim5_numeric_bound_validators 51).2.1.mpr (by omega)

/-- Claim C3: `ClusterConfig` construction validates in a fixed order —
environment, region, machineType (default `e2-medium`), maxNodes (default 3),
diskSize (default 50), nodeCount (default 1), the minNodes-vs-maxNodes check,
zone defaulting to `{region}-a`, then masterCidr (default `172.16.0.0/28`) —
the first failing step's error surfacing and later steps not attempted; and
`NetworkConfig` construction validates environment before region. -/
theorem claim3_cluster_validation_order :
    (∀ a : ClusterConfigArgs,
      (envOk a.env = false → mkClusterConfig a = .error .invalidEnvironment) ∧
      (envOk a.env = true → regionOk a.region = false →
        mkClusterConfig a = .error .invalidRegion) ∧
      (envOk a.env = true → regionOk a.region = true →
        machineTypeOk (a.machineType.getD "e2-medium") = false →
        mkClusterConfig a = .error .invalidMachineType) ∧
      (envOk a.env = true → regionOk a.region = true →
        machineTypeOk (a.machineType.getD "e2-medium") = true →
        ¬ (1 ≤ a.maxNodes.getD 3 ∧ a.maxNodes.getD 3 ≤ 50) →
        mkClusterConfig a = .error (.outOfRange "maxNodes")) ∧
      (envOk a.env = true → regionOk a.region = true →
        machineTypeOk (a.machineType.getD "e2-medium") = true →
        (1 ≤ a.maxNodes.getD 3 ∧ a.maxNodes.getD 3 ≤ 50) →
        ¬ (30 ≤ a.diskSize.getD 50 ∧ a.diskSize.getD 50 ≤ 200) →
        mkClusterConfig a = .error (.outOfRange "diskSize")) ∧
      (envOk a.env = true → regionOk a.region = true →
        machineTypeOk (a.machineType.getD "e2-medium") = true →
        (1 ≤ a.maxNodes.getD 3 ∧ a.maxNodes.getD 3 ≤ 50) →
        (30 ≤ a.diskSize.getD 50 ∧ a.diskSize.getD 50 ≤ 200) →
        ¬ (1 ≤ a.nodeCount.getD 1 ∧ a.nodeCount.getD 1 ≤ 20) →
        mkClusterConfig a = .error (.outOfRange "nodeCount")) ∧
      (envOk a.env = true → regionOk a.region = true →
        machineTypeOk (a.machineType.getD "e2-medium") = true →
        (1 ≤ a.maxNodes.getD 3 ∧ a.maxNodes.getD 3 ≤ 50) →
        (30 ≤ a.diskSize.getD 50 ∧ a.diskSize.getD 50 ≤ 200) →
        (1 ≤ a.nodeCount.getD 1 ∧ a.nodeCount.getD 1 ≤ 20) →
        a.minNodes.getD 1 > a.maxNodes.getD 3 →
        mkClusterConfig a = .error .minExceedsMax) ∧
      (∀ e : ConfigError, envOk a.env = true → regionOk a.region = true →
        machineTypeOk (a.machineType.getD "e2-medium") = true →
        (1 ≤ a.maxNodes.getD 3 ∧ a.maxNodes.getD 3 ≤ 50) →
        (30 ≤ a.diskSize.getD 50 ∧ a.diskSize.getD 50 ≤ 200) →
        (1 ≤ a.nodeCount.getD 1 ∧ a.nodeCount.getD 1 ≤ 20) →
        a.minNodes.getD 1 ≤ a.maxNodes.getD 3 →
        validateMasterCidr (a.masterCidr.getD "172.16.0.0/28") = .error e →
        mkClusterConfig a = .error e) ∧
      (envOk a.env = true → regionOk a.region = true →
        machineTypeOk (a.machineType.getD "e2-medium") = true →
        (1 ≤ a.maxNodes.getD 3 ∧ a.maxNodes.getD 3 ≤ 50) →
        (30 ≤ a.diskSize.getD 50 ∧ a.diskSize.getD 50 ≤ 200) →
        (1 ≤ a.nodeCount.getD 1 ∧ a.nodeCount.getD 1 ≤ 20) →
        a.minNodes.getD 1 ≤ a.maxNodes.getD 3 →
        validateMasterCidr (a.masterCidr.getD "172.16.0.0/28") = .ok () →
        mkClusterConfig a = .ok
          { projectId := a.projectId, region := a.region, env := a.env,
            namePrefix := a.namePrefix,
            zone := a.zone.getD (a.region ++ "-a"),
            machineType := a.machineType.getD "e2-medium",
            nodeCount := a.nodeCount.getD 1,
            minNodes := a.minNodes.getD 1,
            maxNodes := a.maxNodes.getD 3,
            diskSize := a.diskSize.getD 50,
            spotInstances := a.spotInstances.getD true,
            masterCidr := a.masterCidr.getD "172.16.0.0/28",
            podRangeName := a.podRangeName.getD "pod-ranges",
            serviceRangeName := a.serviceRangeName.getD "service-ranges" })) ∧
    (∀ a : NetworkConfigArgs,
      (envOk a.env = false → mkNetworkConfig a = .error .invalidEnvironment) ∧
      (envOk a.env = true → regionOk a.region = false →
        mkNetworkConfig a = .error .invalidRegion)) := by
  refine ⟨fun a => ⟨?_, ?_, ?_, ?_, ?_, ?_, ?_, ?_, ?_⟩, fun a => ⟨?_, ?_⟩⟩
  · exact mkClusterConfig_env_err a
  · exact mkClusterConfig_region_err a
  · exact mkClusterConfig_machineType_err a
  · exact mkClusterConfig_maxNodes_err a
  · exact mkClusterConfig_diskSize_err a
  · exact mkClusterConfig_nodeCount_err a
  · exact mkClusterConfig_minMax_err a
  · exact fun e h h2 h3 h4 h5 h6 h7 h8 => mkClusterConfig_cidr_err a e h h2 h3 h4 h5 h6 h7 h8
  · exact mkClusterConfig_ok a
  · exact mkNetworkConfig_env_err a
  · exact mkNetworkConfig_region_err a

/-- Witness for C3: with both env and region invalid, `InvalidEnvironment`
surfaces; with both machineType and masterCidr invalid, `InvalidMachineType`
surfaces. -/
theorem claim3_cluster_validation_order_witness :
    mkClusterConfig
      { projectId := "p", region := "nowhere", env := "qa", namePrefix := "x" } =
      .error .invalidEnvironment ∧
    mkClusterConfig
      { projectId := "p", region := "europe-west1", env := "dev", namePrefix := "x",
        machineType := some "m1-mega", masterCidr := some "bogus" } =
      .error .invalidMachineType :=
  ⟨(claim3_cluster_validation_order.1 _).1 (by decide),
   (claim3_cluster_validation_order.1 _).2.2.1 (by decide) (by decide) (by decide)⟩

/-- Claim C4: with every earlier validation step passing, a resolved minNodes
(default 1) exceeding the resolved maxNodes (default 3) fails with
`MinExceedsMax` — the comparison is against the already-resolved maxNodes —
and resolved minNodes equal to resolved maxNodes (with a valid masterCidr)
constructs successfully. -/
theorem claim4_min_vs_resolved_max (a : ClusterConfigArgs)
    (h : envOk a.env = true) (h2 : regionOk a.region = true)
    (h3 : machineTypeOk (a.machineType.getD "e2-medium") = true)
    (h4 : 1 ≤ a.maxNodes.getD 3 ∧ a.maxNodes.getD 3 ≤ 50)
    (h5 : 30 ≤ a.diskSize.getD 50 ∧ a.diskSize.getD 50 ≤ 200)
    (h6 : 1 ≤ a.nodeCount.getD 1 ∧ a.nodeCount.getD 1 ≤ 20) :
    (a.minNodes.getD 1 > a.maxNodes.getD 3 →
      mkClusterConfig a = .error .minExceedsMax) ∧
    (a.minNodes.getD 1 = a.maxNodes.getD 3 →
      validateMasterCidr (a.masterCidr.getD "172.16.0.0/28") = .ok () →
      (mkClusterConfig a).toOption.map ClusterConfig.minNodes =
        some (a.maxNodes.getD 3)) := by
  constructor
  · exact mkClusterConfig_minMax_err a h h2 h3 h4 h5 h6
  · intro heq h8
    rw [mkClusterConfig_ok a h h2 h3 h4 h5 h6 (by omega) h8]
    simp [Except.toOption, heq]

/-- Witness for C4: minNodes 4 against an absent maxNodes (resolved to the
default 3) fails with `MinExceedsMax`; minNodes 3 against the same resolved
maxNodes succeeds and stores 3. -/
theorem claim4_min_vs_resolved_max_witness :
    mkClusterConfig
      { projectId := "p", region := "europe-west1", env := "dev", namePrefix := "x",
        minNodes := some 4 } = .error .minExceedsMax ∧
    (mkClusterConfig
      { projectId := "p", region := "europe-west1", env := "dev", namePrefix := "x",
        minNodes := some 3 }).toOption.map ClusterConfig.minNodes = some 3 :=
  ⟨(claim4_min_vs_resolved_max _ (by decide) (by decide) (by decide) (by decide)
      (by decide) (by decide)).1 (by decide),
   (claim4_min_vs_resolved_max _ (by decide) (by decide) (by decide) (by decide)
      (by decide) (by decide)).2 (by decide) (by decide)⟩

/-- Claim C9: minNodes has no bound range of its own — any integer minNodes,
zero and negative values included, is accepted whenever it does not exceed
the resolved maxNodes (everything else being valid), and is stored
unchanged. -/
theorem claim9_minNodes_unbounded (a : ClusterConfigArgs) (m : Int)
    (hm : a.minNodes = some m)
    (h : envOk a.env = true) (h2 : regionOk a.region = true)
    (h3 : machineTypeOk (a.machineType.getD "e2-medium") = true)
    (h4 : 1 ≤ a.maxNodes.getD 3 ∧ a.maxNodes.getD 3 ≤ 50)
    (h5 : 30 ≤ a.diskSize.getD 50 ∧ a.diskSize.getD 50 ≤ 200)
    (h6 : 1 ≤ a.nodeCount.getD 1 ∧ a.nodeCount.getD 1 ≤ 20)
    (h8 : validateMasterCidr (a.masterCidr.getD "172.16.0.0/28") = .ok ())
    (hle : m ≤ a.maxNodes.getD 3) :
    (mkClusterConfig a).toOption.map ClusterConfig.minNodes = some m := by
  rw [mkClusterConfig_ok a h h2 h3 h4 h5 h6 (by rw [hm]; simpa using hle) h8]
  simp [Except.toOption, hm]

/-- Witness for C9: a negative minNodes of -5 is accepted and stored. -/
theorem claim9_minNodes_unbounded_witness :
    (mkClusterConfig
      { projectId := "p", region := "europe-west1", env := "dev", namePrefix := "x",
        minNodes := some (-5) }).toOption.map ClusterConfig.minNodes = some (-5) :=
  claim9_minNodes_unbounded _ (-5) rfl (by decide) (by decide) (by decide)
    (by decide) (by decide) (by decide) (by decide) (by decide)

/-- Claim C10: `NetworkConfig` construction validates only environment and
region; every string supplied for the primary, pod, and service CIDR fields —
CIDR-shaped or not — is accepted and stored verbatim, with the documented
defaults filling absent fields. -/
theorem claim10_network_cidrs_unvalidated (a : NetworkConfigArgs)
    (h : envOk a.env = true) (h2 : regionOk a.region = true) :
    mkNetworkConfig a = .ok
      { projectId := a.projectId, region := a.region, env := a.env,
        namePrefix := a.namePrefix,
        cidr := a.cidr.getD "10.0.0.0/16",
        podCidr := a.podCidr.getD "10.11.0.0/21",
        serviceCidr := a.serviceCidr.getD "10.12.0.0/21",
        podRangeName := a.podRangeName.getD "pod-ranges",
        serviceRangeName := a.serviceRangeName.getD "service-ranges" } :=
  mkNetworkConfig_ok a h h2

/-- Witness for C10: nonsense CIDR strings are accepted and stored verbatim. -/
theorem claim10_network_cidrs_unvalidated_witness :
    mkNetworkConfig
      { projectId := "p", region := "europe-west1", env := "prod", namePrefix := "x",
        cidr := some "not-a-cidr", podCidr := some "???",
        serviceCidr := some "12345" } = .ok
      { projectId := "p", region := "europe-west1", env := "prod", namePrefix := "x",
        cidr := "not-a-cidr", podCidr := "???", serviceCidr := "12345",
        podRangeName := "pod-ranges", serviceRangeName := "service-ranges" } :=
  claim10_network_cidrs_unvalidated _ (by decide) (by decide)

/-- Claim C6: each profile's cluster derivation merges variant defaults with
caller overrides (overrides winning field-by-field) and feeds the result
through full `ClusterConfig` validation: the dev (CostOptimized) profile with
no overrides yields machineType `e2-medium`, maxNodes 3, spot instances true,
disk size 50; the prod (HighAvailability) profile yields `n2-standard-4`,
minNodes 3, maxNodes 10, spot instances false; overriding maxNodes to 20 on
prod yields maxNodes 20 with spot instances still false; and any override
carrying a machine type outside the allow-list fails with
`InvalidMachineType`. -/
theorem claim6_profile_merge_validation :
    (profileGetClusterConfig .dev devProfileParams {}).toOption.map
      (fun c => (c.machineType, c.maxNodes, c.spotInstances, c.diskSize)) =
      some ("e2-medium", 3, true, 50) ∧
    (profileGetClusterConfig .prod prodProfileParams {}).toOption.map
      (fun c => (c.machineType, c.minNodes, c.maxNodes, c.spotInstances)) =
      some ("n2-standard-4", 3, 10, false) ∧
    (profileGetClusterConfig .prod prodProfileParams
      { maxNodes := some 20 }).toOption.map
      (fun c => (c.maxNodes, c.spotInstances)) = some (20, false) ∧
    (∀ o : ClusterOverrides,
      envOk (o.env.getD "prod") = true →
      regionOk (o.region.getD "europe-west1") = true →
      machineTypeOk (o.machineType.getD "n2-standard-4") = false →
      profileGetClusterConfig .prod prodProfileParams o =
        .error .invalidMachineType) := by
  refine ⟨by decide, by decide, by decide, ?_⟩
  intro o h1 h2 h3
  exact mkClusterConfig_machineType_err _ h1 h2 h3

/-- Witness for C6: an override with a machine type outside the allow-list
fails with `InvalidMachineType` despite valid profile defaults. -/
theorem claim6_profile_merge_validation_witness :
    profileGetClusterConfig .prod prodProfileParams
      { machineType := some "t2-mega" } = .error .invalidMachineType :=
  claim6_profile_merge_validation.2.2.2 _ (by decide) (by decide) (by decide)

/-- Claim C7: the composite selects its profile by exact match on env —
`prod` selects the HighAvailability profile, `staging` the Balanced profile,
and any other string (including `dev`) falls through to the CostOptimized
profile — and a composite constructed with env `staging` and no cluster
overrides yields a `ClusterConfig` with machineType `n2-standard-2` and disk
size 75. -/
theorem claim7_profile_selection :
    selectProfile "prod" = .prod ∧
    selectProfile "staging" = .staging ∧
    selectProfile "dev" = .dev ∧
    (∀ s : String, s ≠ "prod" → s ≠ "staging" → selectProfile s = .dev) ∧
    (mkStandardPlatform stagingPlatformArgs).toOption.map
      (fun p => (p.clusterConfig.machineType, p.clusterConfig.diskSize)) =
      some ("n2-standard-2", 75) := by
  refine ⟨by decide, by decide, by decide, ?_, by decide⟩
  intro s h1 h2
  simp [selectProfile, h1, h2]

/-- Witness for C7: an unrecognised environment string selects the dev
(CostOptimized) profile. -/
theorem claim7_profile_selection_witness :
    selectProfile "qa" = .dev :=
  claim7_profile_selection.2.2.2.1 "qa" (by decide) (by decide)

/-- Counterexample for C1: constructing the composite with secretIds
explicitly supplied as the empty list does NOT fail with `EmptySecretList` —
construction succeeds and `hasSecrets` is false, because the composite only
declares the secrets component when the supplied list is non-empty. -/
theorem claim1_counterexample :
    (mkStandardPlatform (secretsPlatformArgs [])).toOption.map
      StandardPlatform.hasSecrets = some false ∧
    mkStandardPlatform (secretsPlatformArgs []) ≠ .error .emptySecretList := by
  constructor
  · decide
  · decide

/-- Claim C1 (amended): a composite constructed with secretIds explicitly
supplied as the empty list succeeds with no secrets group declared
(`hasSecrets` false) — the `EmptySecretList` failure belongs to direct
`StandardSecrets` construction, which the composite skips for an empty
list — and for every non-empty secretIds list of well-formed (non-blank)
ids, the secrets group is declared and `hasSecrets` is true afterwards. -/
theorem claim1_empty_secret_list :
    (mkStandardPlatform (secretsPlatformArgs [])).toOption.map
      StandardPlatform.hasSecrets = some false ∧
    mkStandardSecrets [] = .error .emptySecretList ∧
    (∀ ids : List String, ids ≠ [] → ids.any isBlank = false →
      (mkStandardPlatform (secretsPlatformArgs ids)).toOption.map
        StandardPlatform.hasSecrets = some true) :=
  ⟨by decide, by decide, platform_secrets_nonempty_ok⟩

/-- Witness for C1: a concrete two-element well-formed secret id list
declares the secrets group. -/
theorem claim1_empty_secret_list_witness :
    (mkStandardPlatform (secretsPlatformArgs ["db-password", "api-key"])).toOption.map
      StandardPlatform.hasSecrets = some true :=
  claim1_empty_secret_list.2.2 ["db-password", "api-key"] (by decide) (by decide)

/-- Claim C8: with a workload-identity configuration supplied (and the rest
of the composite's inputs valid), construction fails with
`IncompleteIdentityConfig` when any of saId, k8sNamespace, k8sSaName is
blank; fails with `InvalidServiceAccountIdLength` when all three are
non-blank but the saId length falls outside 6-30 characters; and succeeds
with the identity group declared (`hasIdentity` true) when all three are
non-blank and the saId length is within 6-30. -/
theorem claim8_workload_identity (wi : WorkloadIdentityConfig) :
    (wi.saId = "" ∨ wi.k8sNamespace = "" ∨ wi.k8sSaName = "" →
      mkStandardPlatform (identityPlatformArgs wi) =
        .error .incompleteIdentityConfig) ∧
    (wi.saId ≠ "" → wi.k8sNamespace ≠ "" → wi.k8sSaName ≠ "" →
      wi.saId.length < 6 ∨ wi.saId.length > 30 →
      mkStandardPlatform (identityPlatformArgs wi) =
        .error .invalidServiceAccountIdLength) ∧
    (wi.saId ≠ "" → wi.k8sNamespace ≠ "" → wi.k8sSaName ≠ "" →
      6 ≤ wi.saId.length → wi.saId.length ≤ 30 →
      (mkStandardPlatform (identityPlatformArgs wi)).toOption.map
        StandardPlatform.hasIdentity = some true) :=
  ⟨platform_identity_blank_err wi,
   platform_identity_saId_length_err wi,
   platform_identity_ok wi⟩

/-- Witness for C8: a complete identity configuration with an 11-character
service-account id declares the identity group. -/
theorem claim8_workload_identity_witness :
    (mkStandardPlatform (identityPlatformArgs
      { saId := "workload-sa", k8sNamespace := "default",
        k8sSaName := "app-sa" })).toOption.map
      StandardPlatform.hasIdentity = some true :=
  (claim8_workload_identity _).2.2 (by decide) (by decide) (by decide)
    (by decide) (by decide)

end XInfraKit
